import Mathlib

/-!
Verification development for the lille compiler (scanner, parser
error-recovery discipline, semantic analyzer, symbol table, code emitter
and driver).  Each C++ function relevant to the properties below is
shallowly embedded as an executable Lean definition; machine `int` /
`float` payloads are modelled as `Int` / numeral text (no claim below
depends on overflow or floating-point rounding).
-/

namespace Lille

/-- Symbol tags, mirroring `symbol::symbol_type` from symbol.h (the closed
enumeration used by the scanner, the parser and the semantic analyzer). -/
inductive Sym where
  | identifier | strng | real_num | integer | end_of_program
  | semicolon_sym | colon_sym | comma_sym
  | equals_sym | not_equals_sym | less_than_sym | greater_than_sym
  | less_or_equal_sym | greater_or_equal_sym
  | plus_sym | minus_sym | slash_sym | asterisk_sym | power_sym | ampersand_sym
  | left_paren_sym | right_paren_sym | range_sym | becomes_sym
  | and_sym | begin_sym | boolean_sym | constant_sym | else_sym | elsif_sym
  | end_sym | eof_sym | exit_sym | false_sym | for_sym | function_sym
  | if_sym | in_sym | integer_sym | is_sym | loop_sym | not_sym
  | null_sym | odd_sym | or_sym | pragma_sym | procedure_sym | program_sym
  | read_sym | real_sym | ref_sym | return_sym | reverse_sym | string_sym
  | then_sym | true_sym | value_sym | when_sym | while_sym
  | write_sym | writeln_sym | nul
  deriving DecidableEq, Repr, Fintype

/-- Semantic types, mirroring the `lille_type::lille_ty` enumeration
(lille_type.h): integer, real, string, boolean, function, program, unknown. -/
inductive Lty where
  | type_integer | type_real | type_string | type_boolean
  | type_func | type_prog | type_unknown
  deriving DecidableEq, Repr, Fintype

/-- Identifier kinds, mirroring the `lille_kind` enumeration (lille_kind.h):
variable, constant, procedure, function, program, unknown.  The `_kind`
suffix avoids Lean keywords. -/
inductive Kind where
  | variable_kind | constant_kind | procedure_kind | function_kind
  | prog_kind | unknown_kind
  deriving DecidableEq, Repr, Fintype

/-- Predicate `semantics::is_num` (semantics.h): integer or real. -/
def is_num (t : Lty) : Bool :=
  t = Lty.type_integer || t = Lty.type_real

/-- Predicate `semantics::is_bool` (semantics.h): boolean only. -/
def is_bool (t : Lty) : Bool :=
  t = Lty.type_boolean

/-- Predicate `semantics::is_str` (semantics.h): string only. -/
def is_str (t : Lty) : Bool :=
  t = Lty.type_string

/-- The promotable-to-string test used inside the `&` branch of
`semantics::check_binary` (the local lambda `is_promotable`). -/
def is_promotable (t : Lty) : Bool :=
  t = Lty.type_integer || t = Lty.type_real || t = Lty.type_boolean

/-- Shallow embedding of `semantics::check_binary` (semantics.cpp).
Returns the result type together with the list of error codes flagged on
the error handler during the call (in order).  Branch structure follows
the source: arithmetic (`+ - * / **`, code 116), boolean (`and`/`or`,
code 120), concatenation (`&`, code 115), comparison (code 114), default. -/
def check_binary (L : Lty) (op : Sym) (R : Lty) : Lty × List Nat :=
  if op = Sym.plus_sym || op = Sym.minus_sym || op = Sym.asterisk_sym
     || op = Sym.slash_sym || op = Sym.power_sym then
    if !(is_num L && is_num R) then
      (Lty.type_unknown, [116])
    else if L = Lty.type_real || R = Lty.type_real then
      (Lty.type_real, [])
    else
      (Lty.type_integer, [])
  else if op = Sym.and_sym || op = Sym.or_sym then
    if is_bool L && is_bool R then
      (Lty.type_boolean, [])
    else
      (Lty.type_unknown, [120])
  else if op = Sym.ampersand_sym then
    if L = Lty.type_unknown || R = Lty.type_unknown then
      (Lty.type_string, [])
    else if L = Lty.type_string && R = Lty.type_string then
      (Lty.type_string, [])
    else if (L = Lty.type_string && is_promotable R)
         || (R = Lty.type_string && is_promotable L)
         || (is_promotable L && is_promotable R) then
      (Lty.type_string, [])
    else
      (Lty.type_unknown, [115])
  else if op = Sym.equals_sym || op = Sym.not_equals_sym
       || op = Sym.less_than_sym || op = Sym.less_or_equal_sym
       || op = Sym.greater_than_sym || op = Sym.greater_or_equal_sym then
    let eqop := op = Sym.equals_sym || op = Sym.not_equals_sym
    let ok := (is_num L && is_num R)
           || (is_str L && is_str R && eqop)
           || (is_bool L && is_bool R && eqop)
    if ok then
      (Lty.type_boolean, [])
    else
      (Lty.type_unknown, [114])
  else
    (Lty.type_unknown, [])

/-- Shallow embedding of `semantics::check_unary` (semantics.cpp):
`not` requires boolean (code 120), unary `+`/`-` require numeric and
return the operand type itself (code 116), anything else yields unknown. -/
def check_unary (op : Sym) (T : Lty) : Lty × List Nat :=
  if op = Sym.not_sym then
    if is_bool T then (Lty.type_boolean, []) else (Lty.type_unknown, [120])
  else if op = Sym.plus_sym || op = Sym.minus_sym then
    if is_num T then (T, []) else (Lty.type_unknown, [116])
  else
    (Lty.type_unknown, [])

/-- Shallow embedding of the unary-operator result logic in
`Parser::factor` (parser.cpp, the `+ - not odd` prefix case): `odd` is
handled specially and returns boolean with no call into the semantic
analyzer; `not` and unary `+`/`-` go through `check_unary`.  The operand
`base` is the type returned by `primary()`. -/
def factor_unary (op : Sym) (base : Lty) : Lty × List Nat :=
  if op = Sym.odd_sym then
    (Lty.type_boolean, [])
  else if op = Sym.not_sym then
    check_unary Sym.not_sym base
  else
    check_unary op base

/-- Embedding of `semantics::require_boolean` (semantics.cpp): flags 120
unless the type is boolean or unknown. -/
def require_boolean (T : Lty) : List Nat :=
  if !is_bool T then
    if T ≠ Lty.type_unknown then [120] else []
  else []

/-! Symbol table (id_table.cpp inside compiler.cpp).  A record carries the
identifier text, its type and its kind; the table is a stack of scope
frames.  `scopes` index 0 is the outermost (global) frame and the last
element is the top, matching the `vector<map<string, record*>>` where
`back()` is the active scope.  A frame is an association list kept sorted
by key, mirroring `std::map` insertion and iteration order. -/

/-- Embedding of `id_table::record`: identifier text, semantic type, kind.
(Line/position/offset/trace/param-count attributes are untracked in the
source: `dump` prints constant zeros for them.) -/
structure IdRecord where
  name : String
  ty : Lty
  kind : Kind
  deriving DecidableEq, Repr

/-- Fresh record as built by `record(name)` with type and kind defaulted
to unknown before the caller sets them. -/
def IdRecord.mk0 (name : String) : IdRecord :=
  { name := name, ty := Lty.type_unknown, kind := Kind.unknown_kind }

/-- Insert into a frame keeping keys sorted (the `std::map` invariant);
if the key is present, keep the existing record (mirrors `enter`, which
returns the existing record on a hit). -/
def frameInsert (k : String) (r : IdRecord) : List (String × IdRecord) →
    List (String × IdRecord)
  | [] => [(k, r)]
  | (k0, r0) :: rest =>
    if k = k0 then (k0, r0) :: rest
    else if compare k k0 = Ordering.lt then (k, r) :: (k0, r0) :: rest
    else (k0, r0) :: frameInsert k r rest

/-- Frame lookup (a `map::find`). -/
def frameFind (k : String) : List (String × IdRecord) → Option IdRecord
  | [] => none
  | (k0, r0) :: rest => if k = k0 then some r0 else frameFind k rest

/-- The symbol table: a stack of scope frames, never created empty
(the constructor pushes one global frame). -/
structure IdTable where
  scopes : List (List (String × IdRecord))
  deriving Repr

/-- Embedding of the `id_table` constructor: one empty global scope. -/
def idTableInit : IdTable := ⟨[[]]⟩

/-- Embedding of `id_table::open_scope`: push an empty frame on top. -/
def open_scope (t : IdTable) : IdTable :=
  ⟨t.scopes ++ [[]]⟩

/-- Embedding of `id_table::close_scope`: keep at least the global scope
(a call with one frame left returns unchanged), otherwise destroy the
records of the top frame and pop it. -/
def close_scope (t : IdTable) : IdTable :=
  if t.scopes.length ≤ 1 then t else ⟨t.scopes.dropLast⟩

/-- Embedding of `id_table::enter`: insert a fresh record in the top
frame unless the name is already present (the existing record wins).
Setting of type and kind by the caller is modelled by `enterWith`. -/
def enter (t : IdTable) (name : String) : IdTable :=
  match t.scopes.getLast? with
  | none => t
  | some top => ⟨t.scopes.dropLast ++ [frameInsert name (IdRecord.mk0 name) top]⟩

/-- The `enter` + `set_kind` + `set_type` sequence used by the declaring
callers in semantics.cpp. -/
def enterWith (t : IdTable) (name : String) (ty : Lty) (kind : Kind) : IdTable :=
  match t.scopes.getLast? with
  | none => t
  | some top =>
    ⟨t.scopes.dropLast ++ [frameInsert name { name := name, ty := ty, kind := kind } top]⟩

/-- Embedding of `id_table::lookup_local`: search only the top frame. -/
def lookup_local (t : IdTable) (name : String) : Option IdRecord :=
  match t.scopes.getLast? with
  | none => none
  | some top => frameFind name top

/-- Embedding of `id_table::lookup`: search frames from innermost
(index size-1) to outermost (index 0), first hit wins. -/
def lookup (t : IdTable) (name : String) : Option IdRecord :=
  (t.scopes.reverse).firstM (fun fr => frameFind name fr)

/-- Embedding of `semantics::check_assignment` (semantics.cpp).  Returns
the error codes flagged: 81 when the left-hand side is undeclared, 85
when its kind is constant, 93 on an incompatible pair, nothing when the
types are equal, when the left is real and the right integer (widening),
or when either side is unknown. -/
def check_assignment (t : IdTable) (lhs_name : String) (rhs : Lty) : List Nat :=
  match lookup t lhs_name with
  | none => [81]
  | some rec =>
    if rec.kind = Kind.constant_kind then [85]
    else
      let LT := rec.ty
      let RT := rhs
      if LT = RT then []
      else if LT = Lty.type_real && RT = Lty.type_integer then []
      else if LT = Lty.type_unknown || RT = Lty.type_unknown then []
      else [93]

/-- Embedding of the file-local `ty_name` used by `id_table::dump`:
integer, real, string, boolean and program have labels; everything else
(unknown, function) prints UNKNOWN. -/
def ty_name : Lty → String
  | Lty.type_integer => "INTEGER"
  | Lty.type_real => "REAL"
  | Lty.type_string => "STRING"
  | Lty.type_boolean => "BOOLEAN"
  | Lty.type_prog => "PROG"
  | _ => "UNKNOWN"

/-- Embedding of the file-local `kind_name` used by `id_table::dump`:
1..5 map to VARIABLE/CONSTANT/PROCEDURE/FUNCTION/PROG, anything else to
UNKNOWN. -/
def kind_name (k : Int) : String :=
  if k = 1 then "VARIABLE"
  else if k = 2 then "CONSTANT"
  else if k = 3 then "PROCEDURE"
  else if k = 4 then "FUNCTION"
  else if k = 5 then "PROG"
  else "UNKNOWN"

/-- The numeric code of a kind under the 1..5 convention documented in
`kind_name` (what the source comment says to pass in place of the
hardcoded `0`). -/
def kindCode : Kind → Int
  | Kind.variable_kind => 1
  | Kind.constant_kind => 2
  | Kind.procedure_kind => 3
  | Kind.function_kind => 4
  | Kind.prog_kind => 5
  | Kind.unknown_kind => 0

/-- One record line of `id_table::dump`.  The source sets `line`, `pos`,
`offset`, `trace` and `params` to literal zero and computes the kind
label as `kind_name(0)` (the hardcoded `0` is in the source; its comment
says to substitute the record's numeric kind), while the type label goes
through `ty_name` on the record's actual type. -/
def dumpRecordLine (lvl : Nat) (r : IdRecord) : String :=
  "Token Name: " ++ r.name ++ " Line No: 0 Position: 0" ++
  "  Type: " ++ ty_name r.ty ++
  "  Kind: " ++ kind_name 0 ++
  "  Level: " ++ toString lvl ++
  "  Offset: 0  Trace?: 0  #params: 0"

/-- Lines printed for one scope level by `id_table::dump`: banner,
header, separator, then one line per record in map (key) order. -/
def dumpScopeLines (lvl : Nat) (fr : List (String × IdRecord)) : List String :=
  "~~~~~~~~~~~~~~~~~~~~~~~~~~~~~~~~~~~~~" ::
  ("scope level " ++ toString lvl) ::
  "---------------------" ::
  fr.map (fun kv => dumpRecordLine lvl kv.2)

/-- Embedding of `id_table::dump`: all scopes from outermost (level 0)
to innermost, each rendered by `dumpScopeLines`. -/
def dump (t : IdTable) : List String :=
  (t.scopes.enum).flatMap (fun p => dumpScopeLines p.1 p.2)

/-! Code emitter (code_gen.cpp).  An instruction carries an opcode, an
integer first operand and a textual second operand which may still be a
symbolic label; `label_addresses` maps placed labels to 1-based
instruction indices. -/

/-- Embedding of `code_gen::Instruction` (code_gen.h). -/
structure Instruction where
  opcode : String
  operand1 : Int
  operand2 : String
  comment : String
  deriving DecidableEq, Repr

/-- The emitter state relevant to label resolution: the ordered
instruction list, the label table, the label counter and the 1-based
`instruction_count` (index of the next instruction to be appended). -/
structure CgState where
  instructions : List Instruction
  label_addresses : List (String × Int)
  label_counter : Nat
  instruction_count : Int
  deriving Repr

/-- Emitter state right after the `code_gen` constructor:
`instruction_count` starts at 1, no labels, no instructions. -/
def cgInit : CgState :=
  { instructions := [], label_addresses := [], label_counter := 0,
    instruction_count := 1 }

/-- Association-map insert with overwrite, mirroring
`label_addresses[label] = instruction_count` on a `std::map`. -/
def mapPut (k : String) (v : Int) : List (String × Int) → List (String × Int)
  | [] => [(k, v)]
  | (k0, v0) :: rest =>
    if k = k0 then (k, v) :: rest else (k0, v0) :: mapPut k v rest

/-- Association-map lookup (`label_addresses.find`). -/
def mapGet (k : String) : List (String × Int) → Option Int
  | [] => none
  | (k0, v0) :: rest => if k = k0 then some v0 else mapGet k rest

/-- Embedding of `code_gen::emit` with an integer address operand. -/
def emitInt (op : String) (l : Int) (a : Int) (comment : String)
    (s : CgState) : CgState :=
  { s with
    instructions := s.instructions ++
      [{ opcode := op, operand1 := l, operand2 := toString a, comment := comment }],
    instruction_count := s.instruction_count + 1 }

/-- Embedding of `code_gen::emit` with a (possibly unresolved) label
second operand. -/
def emitLabel (op : String) (l : Int) (label : String) (comment : String)
    (s : CgState) : CgState :=
  { s with
    instructions := s.instructions ++
      [{ opcode := op, operand1 := l, operand2 := label, comment := comment }],
    instruction_count := s.instruction_count + 1 }

/-- Embedding of `code_gen::gen_new_label`: "L" ++ counter, counter
incremented. -/
def gen_new_label (s : CgState) : String × CgState :=
  ("L" ++ toString s.label_counter, { s with label_counter := s.label_counter + 1 })

/-- Embedding of `code_gen::gen_label`: bind the name to the index of the
next instruction to be appended (`instruction_count`). -/
def gen_label (label : String) (s : CgState) : CgState :=
  { s with label_addresses := mapPut label s.instruction_count s.label_addresses }

/-- The label-shape test inside `code_gen::finalize`: nonempty, first
character `L`, all remaining characters digits. -/
def isLabelShaped (op2 : List Char) : Bool :=
  match op2 with
  | [] => false
  | c :: rest => c = 'L' && rest.all (fun d => '0' ≤ d && d ≤ '9')

/-- Operand resolution as performed inline in `code_gen::finalize`: a
label-shaped operand found in `label_addresses` is replaced by its
address; otherwise (not label-shaped, or label-shaped but never placed)
the operand text is kept as is. -/
def resolveOperand (labels : List (String × Int)) (op2 : String) : String :=
  if isLabelShaped op2.data then
    match mapGet op2 labels with
    | some addr => toString addr
    | none => op2
  else op2

/-- One output record written by `code_gen::finalize`: opcode, first
operand, resolved second operand, 1-based instruction number, comment. -/
structure OutRec where
  opcode : String
  operand1 : Int
  operand2 : String
  instr_num : Nat
  comment : String
  deriving DecidableEq, Repr

/-- The record `finalize` writes for the instruction at 0-based position
`i` (so `instr_num = i + 1`). -/
def finalizeRec (labels : List (String × Int)) (i : Nat) (ins : Instruction) :
    OutRec :=
  { opcode := ins.opcode, operand1 := ins.operand1,
    operand2 := resolveOperand labels ins.operand2,
    instr_num := i + 1, comment := ins.comment }

/-- Embedding of `code_gen::finalize` (code_gen.cpp lines 536-580).
`file_ok` models whether the output file opens; when it does not, the
source throws `lille_exception` — the only failure in the function.
Otherwise every instruction is written in order with its second operand
passed through `resolveOperand`; an unplaced label is not an error. -/
def finalize (file_ok : Bool) (instrs : List Instruction)
    (labels : List (String × Int)) : Except String (List OutRec) :=
  if !file_ok then
    Except.error "Unable to open code file"
  else
    Except.ok ((instrs.enum).map (fun p => finalizeRec labels p.1 p.2))

/-- Embedding of the driver decision in `main` (compiler.cpp lines
231-238): emitter finalization runs only when the error count is zero;
otherwise it is skipped and no instruction file is produced (`none`). -/
def driver_finalize (error_count : Nat) (file_ok : Bool)
    (instrs : List Instruction) (labels : List (String × Int)) :
    Option (Except String (List OutRec)) :=
  if error_count = 0 then some (finalize file_ok instrs labels) else none

/-! Parser error-recovery primitives (parser.cpp).  The parser state is
reduced to what the recovery discipline touches: the remaining token
stream (symbol tags; the scanner keeps returning `end_of_program` at and
after EOF, so `pSym []` is `end_of_program`), the `recovering` flag and
the sequence of diagnostic codes flagged through the error handler.
Diagnostic positions are elided: the claims below quantify over which
codes are reported and when, not where. -/

/-- Parser state: remaining token symbols, the Scheme-1 `recovering`
flag, and the diagnostics flagged so far (error codes in order). -/
structure PState where
  toks : List Sym
  recovering : Bool
  diags : List Nat
  deriving DecidableEq, Repr

/-- Embedding of `Parser::S()`: the current lookahead symbol, which is
`end_of_program` once the scanner has run out of tokens. -/
def pSym (toks : List Sym) : Sym :=
  toks.headD Sym.end_of_program

/-- Embedding of `Parser::advance()`: consume the current token. -/
def pAdvance (st : PState) : PState :=
  { st with toks := st.toks.tail }

/-- Embedding of `Parser::accept`: consume on a match, otherwise leave
the state alone; the Bool is the return value. -/
def pAccept (s : Sym) (st : PState) : Bool × PState :=
  if pSym st.toks = s then (true, pAdvance st) else (false, st)

/-- The token-stream part of the skip loop at the top of
`Parser::expect` when already recovering: advance while the current
symbol is neither the expected one nor `end_of_program` (an empty stream
reads as `end_of_program`, so the loop exits there). -/
def pSkipGo (expected : Sym) : List Sym → List Sym
  | [] => []
  | t :: rest =>
    if t = expected || t = Sym.end_of_program then t :: rest
    else pSkipGo expected rest

/-- The skip phase of `Parser::expect` under recovery: only the token
stream moves; the flag and the diagnostics are untouched by the loop. -/
def pSkipTo (expected : Sym) (st : PState) : PState :=
  { st with toks := pSkipGo expected st.toks }

/-- Embedding of `Parser::expect` (parser.cpp lines 103-145).  While
recovering: skip to the expected symbol (or EOF); if found, consume it
and clear `recovering`.  While not recovering: consume a match, or flag
`err_no` and enter recovery. -/
def pExpect (expected : Sym) (err_no : Nat) (st : PState) : PState :=
  if st.recovering then
    let st1 := pSkipTo expected st
    if pSym st1.toks = expected then
      { pAdvance st1 with recovering := false }
    else st1
  else if pSym st.toks = expected then
    pAdvance st
  else
    { st with diags := st.diags ++ [err_no], recovering := true }

/-- The loop of `Parser::synchronize` over the token stream: an empty
stream reads as `end_of_program`, so the loop is not entered and the
flag is cleared at the fall-through exit; a safe or `end_of_program`
token clears the flag at the early exit. -/
def pSyncGo (follow : List Sym) (recovering : Bool) (diags : List Nat) :
    List Sym → PState
  | [] => { toks := [], recovering := false, diags := diags }
  | t :: rest =>
    if t = Sym.end_of_program then
      { toks := t :: rest, recovering := false, diags := diags }
    else if follow.contains t then
      { toks := t :: rest, recovering := false, diags := diags }
    else pSyncGo follow recovering diags rest

/-- Embedding of `Parser::synchronize` (parser.cpp lines 154-172): skip
tokens until one in the follow set or `end_of_program`; `recovering` is
cleared on finding a safe token and also after stopping at EOF. -/
def pSynchronize (follow : List Sym) (st : PState) : PState :=
  pSyncGo follow st.recovering st.diags st.toks

/-- Embedding of `Parser::flag_here` (parser.cpp lines 180-187): report
`code` only when not recovering, then enter recovery. -/
def pFlagHere (code : Nat) (st : PState) : PState :=
  if !st.recovering then
    { st with diags := st.diags ++ [code], recovering := true }
  else st

/-- Embedding of `Parser::flag_prev` (parser.cpp lines 196-210): same
guard and recovery transition as `flag_here`; only the reported position
differs in the source (elided here). -/
def pFlagPrev (code : Nat) (st : PState) : PState :=
  if !st.recovering then
    { st with diags := st.diags ++ [code], recovering := true }
  else st

/-- The complete set of parser primitives that touch the token stream,
the `recovering` flag or the error handler.  Every `err->flag` call in
parser.cpp happens inside `expect`, `flag_here` or `flag_prev`; the
grammar productions are compositions of these operations. -/
inductive POp where
  | advanceOp : POp
  | acceptOp : Sym → POp
  | expectOp : Sym → Nat → POp
  | syncOp : List Sym → POp
  | flagHereOp : Nat → POp
  | flagPrevOp : Nat → POp
  deriving Repr

/-- Run one parser primitive on the state. -/
def runPOp : POp → PState → PState
  | POp.advanceOp, st => pAdvance st
  | POp.acceptOp s, st => (pAccept s st).2
  | POp.expectOp s n, st => pExpect s n st
  | POp.syncOp follow, st => pSynchronize follow st
  | POp.flagHereOp n, st => pFlagHere n st
  | POp.flagPrevOp n, st => pFlagPrev n st

/-! Scanner (scanner.cpp).  The character plumbing (`get_line`,
`fill_buffer`, `get_char`, `following_char`) and the four sub-scanners
are embedded over a state holding the remaining source lines, the
current line buffer and the one-character lookahead.  `while` loops
carry an explicit fuel argument; every concrete run below supplies fuel
larger than the input, so the fuel case is never reached there.
`std::stoi` overflow and `float` conversion are not modelled (values are
exact numerals; no claim touches overflow or rounding), so the numeral
payload of a real token is kept as its lexeme text. -/

/-- The scanner sentinel `end_marker` (BELL, `char(7)`). -/
def end_marker : Char := Char.ofNat 7

/-- A diagnostic flagged by the scanner: line, column, numeric code
(matching `error_handler::flag(line, col, code)`). -/
structure SDiag where
  line : Nat
  col : Int
  code : Nat
  deriving DecidableEq, Repr

/-- Scanner state: remaining unread lines, the current line buffer and
cursor, the line/column counters, the end-of-line and end-of-file flags,
the one-character lookahead, the recorded token start (the
`current_line_number` / `current_pos_on_line` members) and the
diagnostics flagged so far. -/
structure ScanState where
  lines : List (List Char)
  input_buffer : List Char
  pos_on_line : Int
  line_number : Nat
  eoln_flag : Bool
  eof_flag : Bool
  next_char : Char
  cur_line : Nat
  cur_col : Int
  diags : List SDiag
  deriving DecidableEq, Repr

/-- Flag a diagnostic at the recorded token start, as every
`error->flag(current_line_number, current_pos_on_line, code)` call in
scanner.cpp does. -/
def flagS (code : Nat) (s : ScanState) : ScanState :=
  { s with diags := s.diags ++ [⟨s.cur_line, s.cur_col, code⟩] }

/-- Embedding of `scanner::get_line`: read the next source line into the
buffer and bump the line counter, or set `eof_flag` and clear the buffer
when no line remains. -/
def get_line (s : ScanState) : ScanState :=
  match s.lines with
  | [] => { s with eof_flag := true, input_buffer := [] }
  | l :: rest =>
    { s with input_buffer := l, lines := rest, line_number := s.line_number + 1 }

/-- Embedding of `scanner::fill_buffer`: move to the next line, reset
the cursor, mark the line boundary, reset the lookahead to the sentinel. -/
def fill_buffer (s : ScanState) : ScanState :=
  let s1 := get_line { s with pos_on_line := -1 }
  { s1 with eoln_flag := true, next_char := end_marker }

/-- Embedding of `scanner::get_char`: advance one character within the
buffer, or cross to the next line via `fill_buffer`. -/
def get_char (s : ScanState) : ScanState :=
  if s.pos_on_line + 1 < (s.input_buffer.length : Int) then
    { s with pos_on_line := s.pos_on_line + 1,
             next_char := s.input_buffer.getD (s.pos_on_line + 1).toNat end_marker,
             eoln_flag := false }
  else
    fill_buffer s

/-- Embedding of `scanner::following_char`: peek the character after
`next_char`, or the sentinel at end of line or file. -/
def following_char (s : ScanState) : Char :=
  if !s.eof_flag && s.pos_on_line + 1 < (s.input_buffer.length : Int) then
    s.input_buffer.getD (s.pos_on_line + 1).toNat end_marker
  else end_marker

/-- C `isdigit` on the source character set. -/
def isdigitC (c : Char) : Bool := '0' ≤ c && c ≤ '9'

/-- C `isalpha` on the source character set. -/
def isalphaC (c : Char) : Bool :=
  ('A' ≤ c && c ≤ 'Z') || ('a' ≤ c && c ≤ 'z')

/-- C `toupper` on the source character set. -/
def toupperC (c : Char) : Char :=
  if 'a' ≤ c && c ≤ 'z' then Char.ofNat (c.toNat - 32) else c

/-- Embedding of the free function `error_message` (scanner.cpp): the
kit's numeric error code for each expected symbol.  The source throws on
a symbol outside its table (`nul`); no call site passes one, and the
embedding returns 99 there. -/
def error_message : Sym → Nat
  | Sym.identifier => 0 | Sym.strng => 1 | Sym.real_num => 2
  | Sym.integer => 3 | Sym.end_of_program => 4 | Sym.semicolon_sym => 5
  | Sym.colon_sym => 6 | Sym.comma_sym => 7 | Sym.equals_sym => 8
  | Sym.not_equals_sym => 9 | Sym.less_than_sym => 10
  | Sym.greater_than_sym => 11 | Sym.less_or_equal_sym => 12
  | Sym.greater_or_equal_sym => 13 | Sym.plus_sym => 14
  | Sym.minus_sym => 15 | Sym.slash_sym => 16 | Sym.asterisk_sym => 17
  | Sym.power_sym => 18 | Sym.ampersand_sym => 19
  | Sym.left_paren_sym => 20 | Sym.right_paren_sym => 21
  | Sym.range_sym => 22 | Sym.becomes_sym => 23 | Sym.and_sym => 24
  | Sym.begin_sym => 25 | Sym.boolean_sym => 26 | Sym.constant_sym => 27
  | Sym.else_sym => 28 | Sym.elsif_sym => 29 | Sym.end_sym => 30
  | Sym.eof_sym => 31 | Sym.exit_sym => 32 | Sym.false_sym => 33
  | Sym.for_sym => 34 | Sym.function_sym => 35 | Sym.if_sym => 36
  | Sym.in_sym => 37 | Sym.integer_sym => 38 | Sym.is_sym => 39
  | Sym.loop_sym => 40 | Sym.not_sym => 41 | Sym.null_sym => 42
  | Sym.odd_sym => 43 | Sym.or_sym => 44 | Sym.pragma_sym => 45
  | Sym.procedure_sym => 46 | Sym.program_sym => 47 | Sym.read_sym => 48
  | Sym.real_sym => 49 | Sym.ref_sym => 50 | Sym.return_sym => 51
  | Sym.reverse_sym => 52 | Sym.string_sym => 53 | Sym.then_sym => 54
  | Sym.true_sym => 55 | Sym.value_sym => 56 | Sym.when_sym => 57
  | Sym.while_sym => 58 | Sym.write_sym => 59 | Sym.writeln_sym => 60
  | Sym.nul => 99

/-- The reserved-word table of `scanner::scan_alpha`: uppercased lexeme
to keyword symbol, everything else an identifier. -/
def kwSym (name : String) : Sym :=
  if name = "AND" then Sym.and_sym
  else if name = "BEGIN" then Sym.begin_sym
  else if name = "BOOLEAN" then Sym.boolean_sym
  else if name = "CONSTANT" then Sym.constant_sym
  else if name = "ELSE" then Sym.else_sym
  else if name = "ELSIF" then Sym.elsif_sym
  else if name = "END" then Sym.end_sym
  else if name = "EOF" then Sym.eof_sym
  else if name = "EXIT" then Sym.exit_sym
  else if name = "FALSE" then Sym.false_sym
  else if name = "FOR" then Sym.for_sym
  else if name = "FUNCTION" then Sym.function_sym
  else if name = "IF" then Sym.if_sym
  else if name = "IN" then Sym.in_sym
  else if name = "INTEGER" then Sym.integer_sym
  else if name = "IS" then Sym.is_sym
  else if name = "LOOP" then Sym.loop_sym
  else if name = "NOT" then Sym.not_sym
  else if name = "NULL" then Sym.null_sym
  else if name = "ODD" then Sym.odd_sym
  else if name = "OR" then Sym.or_sym
  else if name = "PRAGMA" then Sym.pragma_sym
  else if name = "PROCEDURE" then Sym.procedure_sym
  else if name = "PROGRAM" then Sym.program_sym
  else if name = "READ" then Sym.read_sym
  else if name = "REAL" then Sym.real_sym
  else if name = "REF" then Sym.ref_sym
  else if name = "RETURN" then Sym.return_sym
  else if name = "REVERSE" then Sym.reverse_sym
  else if name = "STRING" then Sym.string_sym
  else if name = "THEN" then Sym.then_sym
  else if name = "TRUE" then Sym.true_sym
  else if name = "VALUE" then Sym.value_sym
  else if name = "WHEN" then Sym.when_sym
  else if name = "WRITE" then Sym.write_sym
  else if name = "WRITELN" then Sym.writeln_sym
  else if name = "WHILE" then Sym.while_sym
  else Sym.identifier

/-- The character-collection loop of `scanner::scan_alpha`: consume
letters, digits and underscores, uppercasing as it goes, tracking the
double-underscore malformation. -/
def scanAlphaLoop : Nat → ScanState → List Char → Bool →
    ScanState × List Char × Bool
  | 0, s, acc, mal => (s, acc, mal)
  | f + 1, s, acc, mal =>
    if isalphaC s.next_char || isdigitC s.next_char || s.next_char = '_' then
      let mal2 := mal || (s.next_char = '_' && following_char s = '_')
      scanAlphaLoop f (get_char s) (acc ++ [toupperC s.next_char]) mal2
    else (s, acc, mal)

/-- Embedding of `scanner::scan_alpha`: collect the lexeme, flag code 61
on an illegal underscore, map to a keyword or identifier symbol. -/
def scan_alpha (fuel : Nat) (s : ScanState) : ScanState × Sym × String :=
  let acc0 := [toupperC s.next_char]
  let s0 := get_char s
  let (s1, acc, mal) := scanAlphaLoop fuel s0 acc0 false
  let mal2 := mal || (acc.getLastD ' ' = '_')
  let s2 := if mal2 then flagS 61 s1 else s1
  let name := String.mk acc
  (s2, kwSym name, name)

/-- A digit-consumption loop of `scanner::scan_digit`
(`while (isdigit(next_char))`). -/
def scanDigitLoop : Nat → ScanState → List Char → ScanState × List Char
  | 0, s, acc => (s, acc)
  | f + 1, s, acc =>
    if isdigitC s.next_char then
      scanDigitLoop f (get_char s) (acc ++ [s.next_char])
    else (s, acc)

/-- The numeral value `std::stoi` computes on an all-digit lexeme
(exact; overflow is not modelled). -/
def digitsVal (text : List Char) : Int :=
  (text.foldl (fun n c => n * 10 + (c.toNat - 48)) (0 : Nat) : Int)

/-- Embedding of `scanner::scan_digit` (scanner.cpp lines 395-466):
integer part, then a fractional part only when `.` is not followed by a
second `.` (so `..` is left for the range operator), then an optional
exponent; code 77 is flagged when a digit is missing after `.` or the
exponent marker, or when a letter adjoins the numeral.  Returns the
symbol (`integer` or `real_num`), the integer value and the lexeme
text. -/
def scan_digit (fuel : Nat) (s : ScanState) :
    ScanState × Sym × Int × List Char :=
  let (s1, t1) := scanDigitLoop fuel s []
  let fracStep :
      ScanState × Bool × List Char :=
    if s1.next_char = '.' && following_char s1 ≠ '.' then
      let s2 := get_char s1
      let s3 := if !isdigitC s2.next_char then flagS 77 s2 else s2
      let (s4, t2) := scanDigitLoop fuel s3 (t1 ++ ['.'])
      (s4, true, t2)
    else (s1, false, t1)
  let (sa, isRealA, ta) := fracStep
  let expStep : ScanState × Bool × List Char :=
    if sa.next_char = 'E' || sa.next_char = 'e' then
      let tb := ta ++ [sa.next_char]
      let sb := get_char sa
      let signStep : ScanState × List Char :=
        if sb.next_char = '+' || sb.next_char = '-' then
          (get_char sb, tb ++ [sb.next_char])
        else (sb, tb)
      let (sc, tc) := signStep
      let sd := if !isdigitC sc.next_char then flagS 77 sc else sc
      let (se, td) := scanDigitLoop fuel sd tc
      (se, true, td)
    else (sa, isRealA, ta)
  let (sx, isReal, tx) := expStep
  let sy := if isalphaC sx.next_char then flagS 77 sx else sx
  if isReal then (sy, Sym.real_num, 0, tx)
  else (sy, Sym.integer, digitsVal tx, tx)

/-- The body loop of `scanner::scan_string`
(`while (!eof_flag && !eoln_flag)`): a doubled quote contributes one
quote character; a single quote closes the literal. -/
def scanStringLoop : Nat → ScanState → List Char → ScanState × List Char × Bool
  | 0, s, acc => (s, acc, false)
  | f + 1, s, acc =>
    if !s.eof_flag && !s.eoln_flag then
      if s.next_char = '"' then
        if following_char s = '"' then
          scanStringLoop f (get_char (get_char s)) (acc ++ ['"'])
        else (get_char s, acc, true)
      else scanStringLoop f (get_char s) (acc ++ [s.next_char])
    else (s, acc, false)

/-- Embedding of `scanner::scan_string`: step past the opening quote,
collect the body, flag the string error code when the literal is not
terminated on its line. -/
def scan_string (fuel : Nat) (s : ScanState) : ScanState × Sym × String :=
  let s0 := get_char s
  let (s1, acc, terminated) := scanStringLoop fuel s0 []
  let s2 := if !terminated then flagS (error_message Sym.strng) s1 else s1
  (s2, Sym.strng, String.mk acc)

/-- Embedding of `scanner::scan_special_symbol` (scanner.cpp lines
471-560).  Multi-character operators peek at the following character;
`.` followed by `.` is the range operator, a bare `.` flags
`error_message(range_sym)` and yields the `nul` symbol; unknown
punctuation flags 74 and yields `nul`.  The trailing `get_char()` that
the source performs for every non-string branch is folded into each
branch here; the string branch returns without it, as in the source.
The third component is the string payload for the `"` branch. -/
def scan_special_symbol (fuel : Nat) (s : ScanState) :
    ScanState × Sym × String :=
  if s.next_char = ':' then
    if following_char s = '=' then (get_char (get_char s), Sym.becomes_sym, "")
    else (get_char s, Sym.colon_sym, "")
  else if s.next_char = '<' then
    if following_char s = '=' then (get_char (get_char s), Sym.less_or_equal_sym, "")
    else if following_char s = '>' then (get_char (get_char s), Sym.not_equals_sym, "")
    else (get_char s, Sym.less_than_sym, "")
  else if s.next_char = '>' then
    if following_char s = '=' then (get_char (get_char s), Sym.greater_or_equal_sym, "")
    else (get_char s, Sym.greater_than_sym, "")
  else if s.next_char = '*' then
    if following_char s = '*' then (get_char (get_char s), Sym.power_sym, "")
    else (get_char s, Sym.asterisk_sym, "")
  else if s.next_char = '.' then
    if following_char s = '.' then (get_char (get_char s), Sym.range_sym, "")
    else (get_char (flagS (error_message Sym.range_sym) s), Sym.nul, "")
  else if s.next_char = '"' then
    scan_string fuel s
  else if s.next_char = '&' then (get_char s, Sym.ampersand_sym, "")
  else if s.next_char = '/' then (get_char s, Sym.slash_sym, "")
  else if s.next_char = ';' then (get_char s, Sym.semicolon_sym, "")
  else if s.next_char = '(' then (get_char s, Sym.left_paren_sym, "")
  else if s.next_char = ')' then (get_char s, Sym.right_paren_sym, "")
  else if s.next_char = ',' then (get_char s, Sym.comma_sym, "")
  else if s.next_char = '+' then (get_char s, Sym.plus_sym, "")
  else if s.next_char = '-' then (get_char s, Sym.minus_sym, "")
  else if s.next_char = '=' then (get_char s, Sym.equals_sym, "")
  else
    (get_char (flagS 74 s), Sym.nul, "")

/-- Inner whitespace loop of `scanner::get_token`
(`while (!eof_flag && next_char <= ' ')`). -/
def skipSpacesL : Nat → ScanState → ScanState
  | 0, s => s
  | f + 1, s =>
    if !s.eof_flag && s.next_char ≤ ' ' then skipSpacesL f (get_char s) else s

/-- Inner comment loop of `scanner::get_token` (`--` drops the rest of
the line). -/
def skipCommentL : Nat → ScanState → ScanState
  | 0, s => s
  | f + 1, s =>
    if !s.eof_flag && s.next_char = '-' && following_char s = '-' then
      skipCommentL f (fill_buffer s)
    else s

/-- Outer whitespace-and-comment loop of `scanner::get_token`. -/
def skipWsL : Nat → ScanState → ScanState
  | 0, s => s
  | f + 1, s =>
    if !s.eof_flag &&
       (s.next_char ≤ ' ' || (s.next_char = '-' && following_char s = '-')) then
      skipWsL f (skipCommentL (f + 1) (skipSpacesL (f + 1) s))
    else s

/-- A token as handed to the parser: symbol tag, start position and the
type-specific payloads (`int_val` for integer literals, `real_text` is
the unconverted lexeme of a real literal, `str_val` for strings,
`ident` for identifiers). -/
structure Tok where
  sym : Sym
  line : Nat
  col : Int
  int_val : Int := 0
  real_text : String := ""
  str_val : String := ""
  ident : String := ""
  deriving DecidableEq, Repr

/-- The end-of-program token produced at EOF, positioned at the last
line and column. -/
def eopTok (s : ScanState) : Tok :=
  { sym := Sym.end_of_program, line := s.line_number, col := s.pos_on_line }

mutual

/-- Embedding of `scanner::get_token` (scanner.cpp lines 196-275): skip
whitespace and comments, record the token start, dispatch on the first
character class, build the token; at EOF return the end-of-program
token.  A `pragma_sym` result is consumed by `parse_pragma`, whose last
inner `get_token` result becomes the current token, as in the source. -/
def getTokenF : Nat → ScanState → ScanState × Tok
  | 0, s => (s, eopTok s)
  | f + 1, s =>
    let s1 := skipWsL (f + 1) s
    let s2 := { s1 with cur_line := s1.line_number, cur_col := s1.pos_on_line }
    if !s2.eof_flag then
      if isalphaC s2.next_char then
        let (s3, sym, name) := scan_alpha (f + 1) s2
        if sym = Sym.identifier then
          (s3, { sym := Sym.identifier, line := s3.cur_line, col := s3.cur_col,
                 ident := name })
        else if sym = Sym.pragma_sym then
          parsePragmaF f s3
        else
          (s3, { sym := sym, line := s3.cur_line, col := s3.cur_col })
      else if isdigitC s2.next_char then
        let (s3, sym, ival, text) := scan_digit (f + 1) s2
        if sym = Sym.integer then
          (s3, { sym := Sym.integer, line := s3.cur_line, col := s3.cur_col,
                 int_val := ival })
        else
          (s3, { sym := Sym.real_num, line := s3.cur_line, col := s3.cur_col,
                 real_text := String.mk text })
      else
        let (s3, sym, sval) := scan_special_symbol (f + 1) s2
        if sym = Sym.strng then
          (s3, { sym := Sym.strng, line := s3.cur_line, col := s3.cur_col,
                 str_val := sval })
        else
          (s3, { sym := sym, line := s3.cur_line, col := s3.cur_col })
    else
      (s2, eopTok s2)

/-- Embedding of `scanner::parse_pragma` (scanner.cpp lines 567-603):
scan the pragma name (flag 69 unless an identifier), the left
parenthesis (flag its code when missing), skip forgivingly to `)` or
EOF, then require `;` (flagging its code otherwise); when the semicolon
is there the next real token is scanned and returned. -/
def parsePragmaF : Nat → ScanState → ScanState × Tok
  | 0, s => (s, eopTok s)
  | f + 1, s =>
    let (s1, t1) := getTokenF f s
    let s1b := if t1.sym ≠ Sym.identifier then flagS 69 s1 else s1
    let (s2, t2) := getTokenF f s1b
    let s2b :=
      if t2.sym ≠ Sym.left_paren_sym then
        flagS (error_message Sym.left_paren_sym) s2
      else s2
    let (s3, t3) := pragmaSkipF f s2b
    if t3.sym ≠ Sym.semicolon_sym then
      (flagS (error_message Sym.semicolon_sym) s3, t3)
    else
      getTokenF f s3

/-- The forgiving skip-to-`)` loop inside `parse_pragma`. -/
def pragmaSkipF : Nat → ScanState → ScanState × Tok
  | 0, s => (s, eopTok s)
  | f + 1, s =>
    let (s1, t) := getTokenF f s
    if t.sym = Sym.end_of_program then (s1, t)
    else if t.sym = Sym.right_paren_sym then (s1, t)
    else pragmaSkipF f s1

end

/-- Scanner state after the constructor: counters reset, then one
`get_line` to prime the buffer. -/
def scanInit (src : List (List Char)) : ScanState :=
  get_line
    { lines := src, input_buffer := [], pos_on_line := -1, line_number := 0,
      eoln_flag := true, eof_flag := false, next_char := end_marker,
      cur_line := 0, cur_col := 0, diags := [] }

/-- Run the scanner to completion: collect tokens until the
end-of-program token (which is included last), returning the final state
as well. -/
def tokenizeF : Nat → ScanState → ScanState × List Tok
  | 0, s => (s, [])
  | f + 1, s =>
    let (s1, t) := getTokenF (f + 1) s
    if t.sym = Sym.end_of_program then (s1, [t])
    else
      let (s2, ts) := tokenizeF f s1
      (s2, t :: ts)

/-- Tokenize one source text given as lines of characters. -/
def scanSource (fuel : Nat) (src : List (List Char)) : List Tok :=
  (tokenizeF fuel (scanInit src)).2

/-- Diagnostics of a complete scan. -/
def scanDiags (fuel : Nat) (src : List (List Char)) : List SDiag :=
  (tokenizeF fuel (scanInit src)).1.diags

/-! Driver-level sequences used by the invariants. -/

/-- A symbol-table scope operation as invoked by the parser:
`open_scope` or `close_scope`. -/
inductive ScopeOp where
  | openOp : ScopeOp
  | closeOp : ScopeOp
  deriving DecidableEq, Repr

/-- Run a sequence of scope operations on the symbol table. -/
def runScopeOps : List ScopeOp → IdTable → IdTable
  | [], t => t
  | ScopeOp.openOp :: rest, t => runScopeOps rest (open_scope t)
  | ScopeOp.closeOp :: rest, t => runScopeOps rest (close_scope t)

/-- A jump instruction referencing the label `L0`, as emitted by
`code_gen::gen_jump` ("JMP", level 0, label operand, comment "Jump."). -/
def jmpL0 : Instruction :=
  { opcode := "JMP", operand1 := 0, operand2 := "L0", comment := "Jump." }

/-- A one-record symbol table: the global scope holding `X`, an integer
variable (as `semantics::declare_var` would install it). -/
def tableX : IdTable :=
  enterWith idTableInit "X" Lty.type_integer Kind.variable_kind

/-- A scanner state sitting on a lone `.` at the start of a one-line
buffer (not in a numeric context, not followed by a second dot). -/
def dotState : ScanState :=
  { lines := [], input_buffer := ['.'], pos_on_line := 0, line_number := 1,
    eoln_flag := false, eof_flag := false, next_char := '.',
    cur_line := 1, cur_col := 0, diags := [] }

/-! Helper lemmas shared by the claim theorems. -/

/-- Appending a diagnostic changes the diagnostics list. -/
theorem append_singleton_ne {α : Type} (l : List α) (x : α) : l ++ [x] ≠ l := by
  intro h
  have := congrArg List.length h
  simp at this

/-- The synchronize loop never touches the diagnostics. -/
theorem pSyncGo_diags (follow : List Sym) (r : Bool) (d : List Nat) :
    ∀ l, (pSyncGo follow r d l).diags = d := by
  intro l
  induction l with
  | nil => rfl
  | cons t rest ih =>
    by_cases h1 : t = Sym.end_of_program
    · simp [pSyncGo, h1]
    · by_cases h2 : t ∈ follow <;> simp [pSyncGo, h1, h2, ih]

/-- The synchronize loop always ends with the recovery flag cleared. -/
theorem pSyncGo_recovering (follow : List Sym) (r : Bool) (d : List Nat) :
    ∀ l, (pSyncGo follow r d l).recovering = false := by
  intro l
  induction l with
  | nil => rfl
  | cons t rest ih =>
    by_cases h1 : t = Sym.end_of_program
    · simp [pSyncGo, h1]
    · by_cases h2 : t ∈ follow <;> simp [pSyncGo, h1, h2, ih]

/-- The line reader and buffer plumbing never touch the diagnostics. -/
theorem get_line_diags (s : ScanState) : (get_line s).diags = s.diags := by
  cases h : s.lines <;> simp [get_line, h]

/-- Crossing to the next line never touches the diagnostics. -/
theorem fill_buffer_diags (s : ScanState) : (fill_buffer s).diags = s.diags := by
  simp [fill_buffer, get_line_diags]

/-- Advancing a character never touches the diagnostics. -/
theorem get_char_diags (s : ScanState) : (get_char s).diags = s.diags := by
  by_cases h : s.pos_on_line + 1 < (s.input_buffer.length : Int) <;>
    simp [get_char, h, fill_buffer_diags]

/-- An unplaced operand passes through label resolution unchanged. -/
theorem resolveOperand_unplaced (labels : List (String × Int)) (op2 : String)
    (hu : mapGet op2 labels = none) : resolveOperand labels op2 = op2 := by
  by_cases h : isLabelShaped op2.data <;> simp [resolveOperand, h, hu]

/-! Claim theorems. -/

/-- C1: the claim states that `check_binary` emits no diagnostic when an
operand type is unknown.  Counterexample: an unknown left operand under
`+` fails the `is_num` test, so the arithmetic-required code 116 is
flagged (and unknown is returned), contradicting the claim. -/
theorem C1_counterexample :
    check_binary Lty.type_unknown Sym.plus_sym Lty.type_integer
      = (Lty.type_unknown, [116]) ∧ ([116] : List Nat) ≠ [] := by
  decide

/-- C1 (amended): the silent unknown-operand acceptance exists only for
`&` (which returns string).  For the arithmetic, boolean and comparison
operator classes an unknown operand fails the operand-type test like any
other wrong type: the class diagnostic (116, 120, 114 respectively) is
emitted and unknown is returned. -/
theorem C1_unknown_operand_behavior (L R : Lty) (op : Sym)
    (h : L = Lty.type_unknown ∨ R = Lty.type_unknown) :
    ((op = Sym.plus_sym ∨ op = Sym.minus_sym ∨ op = Sym.asterisk_sym ∨
      op = Sym.slash_sym ∨ op = Sym.power_sym) →
        check_binary L op R = (Lty.type_unknown, [116])) ∧
    ((op = Sym.and_sym ∨ op = Sym.or_sym) →
        check_binary L op R = (Lty.type_unknown, [120])) ∧
    (op = Sym.ampersand_sym →
        check_binary L op R = (Lty.type_string, [])) ∧
    ((op = Sym.equals_sym ∨ op = Sym.not_equals_sym ∨
      op = Sym.less_than_sym ∨ op = Sym.less_or_equal_sym ∨
      op = Sym.greater_than_sym ∨ op = Sym.greater_or_equal_sym) →
        check_binary L op R = (Lty.type_unknown, [114])) := by
  revert h
  revert L R op
  decide

/-- Witness for C1 (amended) at an unknown left operand under `+`. -/
theorem C1_unknown_operand_behavior_witness :
    check_binary Lty.type_unknown Sym.plus_sym Lty.type_real
      = (Lty.type_unknown, [116]) :=
  (C1_unknown_operand_behavior Lty.type_unknown Lty.type_real Sym.plus_sym
    (Or.inl rfl)).1 (Or.inl rfl)

/-- C7: the claim states that `odd` requires an integer operand and
flags a diagnostic otherwise.  Counterexample: the parser's `factor`
returns boolean for `odd` on a boolean operand with no diagnostic at
all (the odd branch never consults `check_unary`). -/
theorem C7_counterexample :
    factor_unary Sym.odd_sym Lty.type_boolean = (Lty.type_boolean, []) ∧
    Lty.type_boolean ≠ Lty.type_integer := by
  decide

/-- C7 (amended): `odd` yields boolean for every operand type without
any check or diagnostic; `not` requires boolean (flagging 120
otherwise); unary `+`/`-` require numeric and return the operand's own
type (flagging 116 otherwise). -/
theorem C7_unary_typing (t : Lty) :
    factor_unary Sym.odd_sym t = (Lty.type_boolean, []) ∧
    factor_unary Sym.not_sym t =
      (if is_bool t then (Lty.type_boolean, []) else (Lty.type_unknown, [120])) ∧
    factor_unary Sym.plus_sym t =
      (if is_num t then (t, []) else (Lty.type_unknown, [116])) ∧
    factor_unary Sym.minus_sym t =
      (if is_num t then (t, []) else (Lty.type_unknown, [116])) := by
  revert t
  decide

/-- C8: the driver finalizes the emitter (producing the instruction
file) exactly when the error count is zero; with a nonzero count
finalization is skipped and no output value exists. -/
theorem C8_finalize_iff_no_errors (error_count : Nat) (file_ok : Bool)
    (instrs : List Instruction) (labels : List (String × Int)) :
    (driver_finalize error_count file_ok instrs labels).isSome ↔
      error_count = 0 := by
  by_cases h : error_count = 0 <;> simp [driver_finalize, h]

/-- C2: the claim states that finalization fails with a fatal internal
error when an instruction references a label never placed.
Counterexample: a single jump to the never-placed label `L0` finalizes
successfully, and the output record carries the unresolved text `L0` as
its operand. -/
theorem C2_counterexample :
    finalize true [jmpL0] [] =
      Except.ok [{ opcode := "JMP", operand1 := 0, operand2 := "L0",
                   instr_num := 1, comment := "Jump." }] ∧
    mapGet "L0" ([] : List (String × Int)) = none := by
  constructor
  · rfl
  · rfl

/-- C2 (amended): an instruction whose second operand is never placed
does not make finalization fail; finalize succeeds (whenever the output
file opens) and the corresponding record keeps the label text verbatim
as its operand, numbered `i + 1`. -/
theorem C2_unplaced_label_passthrough (instrs : List Instruction)
    (labels : List (String × Int)) (i : Nat) (h : i < instrs.length)
    (hu : mapGet instrs[i].operand2 labels = none) :
    ∃ recs, finalize true instrs labels = Except.ok recs ∧
      recs.length = instrs.length ∧
      ∃ h2 : i < recs.length,
        recs[i].operand2 = instrs[i].operand2 ∧
        recs[i].instr_num = i + 1 := by
  refine ⟨(instrs.enum).map (fun p => finalizeRec labels p.1 p.2), ?_, ?_, ?_⟩
  · simp [finalize]
  · simp
  · have h2 : i < ((instrs.enum).map (fun p => finalizeRec labels p.1 p.2)).length := by
      simp [h]
    refine ⟨h2, ?_, ?_⟩
    · have hg : ((instrs.enum).map (fun p => finalizeRec labels p.1 p.2))[i]
          = finalizeRec labels i instrs[i] := by
        simp [List.getElem_map, List.getElem_enum]
      rw [hg]
      simp [finalizeRec, resolveOperand_unplaced labels _ hu]
    · have hg : ((instrs.enum).map (fun p => finalizeRec labels p.1 p.2))[i]
          = finalizeRec labels i instrs[i] := by
        simp [List.getElem_map, List.getElem_enum]
      rw [hg]
      rfl

/-- Witness for C2 (amended) at the single unplaced jump. -/
theorem C2_unplaced_label_passthrough_witness :
    ∃ recs, finalize true [jmpL0] [] = Except.ok recs ∧
      recs.length = 1 ∧
      ∃ h2 : 0 < recs.length,
        recs[0].operand2 = "L0" ∧ recs[0].instr_num = 1 := by
  have := C2_unplaced_label_passthrough [jmpL0] [] 0 (by decide) (by decide)
  simpa [jmpL0] using this

/-- C3: for every parser primitive (the only operations containing an
`err->flag` call are `expect`, `flag_here` and `flag_prev`), no
diagnostic is produced while `recovering` is true, and any step that
produces a diagnostic leaves `recovering` set. -/
theorem C3_report_only_when_not_recovering (op : POp) (st : PState) :
    (st.recovering = true → (runPOp op st).diags = st.diags) ∧
    ((runPOp op st).diags ≠ st.diags → (runPOp op st).recovering = true) := by
  cases op with
  | advanceOp => simp [runPOp, pAdvance]
  | acceptOp s =>
    by_cases hc : pSym st.toks = s <;> simp [runPOp, pAccept, pAdvance, hc]
  | expectOp s n =>
    by_cases hr : st.recovering
    · simp only [runPOp, pExpect, hr, if_true, pSkipTo, pAdvance]
      split_ifs <;> simp
    · by_cases hm : pSym st.toks = s
      · simp [runPOp, pExpect, hr, hm, pAdvance]
      · refine ⟨fun h => absurd h (by simp [hr]), fun _ => ?_⟩
        simp [runPOp, pExpect, hr, hm]
  | syncOp follow =>
    simp [runPOp, pSynchronize, pSyncGo_diags]
  | flagHereOp n =>
    by_cases hr : st.recovering
    · simp [runPOp, pFlagHere, hr]
    · exact ⟨fun h => absurd h (by simp [hr]),
        fun _ => by simp [runPOp, pFlagHere, hr]⟩
  | flagPrevOp n =>
    by_cases hr : st.recovering
    · simp [runPOp, pFlagPrev, hr]
    · exact ⟨fun h => absurd h (by simp [hr]),
        fun _ => by simp [runPOp, pFlagPrev, hr]⟩

/-- Witness for C3: a `flag_here` step taken while recovering reports
nothing. -/
theorem C3_report_only_when_not_recovering_witness :
    (runPOp (POp.flagHereOp 75) ⟨[Sym.begin_sym], true, [5]⟩).diags = [5] :=
  (C3_report_only_when_not_recovering (POp.flagHereOp 75)
    ⟨[Sym.begin_sym], true, [5]⟩).1 rfl

/-- C4: characterization of `check_assignment`.  An undeclared
left-hand side flags 81; a constant kind flags 85 and nothing else; in
the remaining cases the check accepts exactly when the types are equal,
the left is real and the right integer, or either side is unknown, and
flags the type-mismatch code 93 in every other case. -/
theorem C4_assignment_check (t : IdTable) (lhs : String) (rhs : Lty) :
    (lookup t lhs = none → check_assignment t lhs rhs = [81]) ∧
    (∀ rec : IdRecord, lookup t lhs = some rec →
      (rec.kind = Kind.constant_kind → check_assignment t lhs rhs = [85]) ∧
      (rec.kind ≠ Kind.constant_kind →
        (check_assignment t lhs rhs = [] ↔
          (rec.ty = rhs ∨ (rec.ty = Lty.type_real ∧ rhs = Lty.type_integer) ∨
           rec.ty = Lty.type_unknown ∨ rhs = Lty.type_unknown)) ∧
        (¬(rec.ty = rhs ∨ (rec.ty = Lty.type_real ∧ rhs = Lty.type_integer) ∨
           rec.ty = Lty.type_unknown ∨ rhs = Lty.type_unknown) →
          check_assignment t lhs rhs = [93]))) := by
  constructor
  · intro h
    simp [check_assignment, h]
  · intro rec hlook
    have key :
        (rec.kind = Kind.constant_kind → check_assignment t lhs rhs = [85]) ∧
        (rec.kind ≠ Kind.constant_kind →
          (check_assignment t lhs rhs = [] ↔
            (rec.ty = rhs ∨ (rec.ty = Lty.type_real ∧ rhs = Lty.type_integer) ∨
             rec.ty = Lty.type_unknown ∨ rhs = Lty.type_unknown)) ∧
          (¬(rec.ty = rhs ∨ (rec.ty = Lty.type_real ∧ rhs = Lty.type_integer) ∨
             rec.ty = Lty.type_unknown ∨ rhs = Lty.type_unknown) →
            check_assignment t lhs rhs = [93])) := by
      simp only [check_assignment, hlook]
      rcases rec with ⟨nm, ty, kd⟩
      cases kd <;> cases ty <;> cases rhs <;> simp
    exact key

/-- Witness for C4 at the concrete table holding the integer variable
`X`: assigning a string flags 93. -/
theorem C4_assignment_check_witness :
    check_assignment tableX "X" Lty.type_string = [93] :=
  (((C4_assignment_check tableX "X" Lty.type_string).2
      { name := "X", ty := Lty.type_integer, kind := Kind.variable_kind }
      (by decide)).2 (by decide)).2 (by decide)

/-- The outermost frame survives one scope operation, and nonemptiness
is preserved. -/
theorem scopeOp_preserves (t : IdTable) (h : t.scopes ≠ []) :
    ((open_scope t).scopes ≠ [] ∧ (open_scope t).scopes.head? = t.scopes.head?)
    ∧ ((close_scope t).scopes ≠ [] ∧
       (close_scope t).scopes.head? = t.scopes.head?) := by
  refine ⟨⟨by simp [open_scope, h], ?_⟩, ?_⟩
  · cases hs : t.scopes with
    | nil => exact absurd hs h
    | cons a l => simp [open_scope, hs]
  · by_cases hl : t.scopes.length ≤ 1
    · simp [close_scope, hl, h]
    · have h2 : 1 < t.scopes.length := by omega
      constructor
      · have : (close_scope t).scopes.length = t.scopes.length - 1 := by
          simp [close_scope, hl]
        intro hnil
        rw [hnil] at this
        simp at this
        omega
      · cases hs : t.scopes with
        | nil => exact absurd hs h
        | cons a l =>
          cases l with
          | nil => rw [hs] at h2; simp at h2
          | cons b l2 => simp [close_scope, hl, hs]

/-- C5: under any sequence of `open_scope`/`close_scope` calls the scope
stack stays nonempty and the outermost frame is untouched; a
`close_scope` with only the outermost frame left is a no-op and every
other `close_scope` pops exactly the top frame. -/
theorem C5_scope_stack (ops : List ScopeOp) (t : IdTable)
    (h : t.scopes ≠ []) :
    ((runScopeOps ops t).scopes ≠ [] ∧
     (runScopeOps ops t).scopes.head? = t.scopes.head?) ∧
    (∀ t2 : IdTable, t2.scopes.length = 1 → close_scope t2 = t2) ∧
    (∀ t2 : IdTable, 1 < t2.scopes.length →
      (close_scope t2).scopes = t2.scopes.dropLast) := by
  refine ⟨?_, ?_, ?_⟩
  · induction ops generalizing t with
    | nil => exact ⟨h, rfl⟩
    | cons op rest ih =>
      cases op with
      | openOp =>
        have hp := (scopeOp_preserves t h).1
        have := ih (open_scope t) hp.1
        exact ⟨this.1, this.2.trans hp.2⟩
      | closeOp =>
        have hp := (scopeOp_preserves t h).2
        have := ih (close_scope t) hp.1
        exact ⟨this.1, this.2.trans hp.2⟩
  · intro t2 h2
    simp [close_scope, h2]
  · intro t2 h2
    have : ¬t2.scopes.length ≤ 1 := by omega
    simp [close_scope, this]

/-- Witness for C5 on the sequence open, close, close from the freshly
constructed table: one frame remains and it is the original global
frame. -/
theorem C5_scope_stack_witness :
    (runScopeOps [ScopeOp.openOp, ScopeOp.closeOp, ScopeOp.closeOp]
        idTableInit).scopes ≠ [] ∧
    (runScopeOps [ScopeOp.openOp, ScopeOp.closeOp, ScopeOp.closeOp]
        idTableInit).scopes.head? = idTableInit.scopes.head? :=
  (C5_scope_stack [ScopeOp.openOp, ScopeOp.closeOp, ScopeOp.closeOp]
    idTableInit (by simp [idTableInit])).1

/-- C6: the scanner never produces a token for a lone dot.  The input
`1..10` scans as exactly the three tokens integer 1, range, integer 10
(plus the trailing end-of-program token) with no diagnostic and no real
literal; in `scan_special_symbol` a dot followed by a second dot yields
the range token with no diagnostic, and a lone dot yields the `nul`
token together with the range-operator diagnostic code. -/
theorem C6_lone_dot_never_a_token :
    (scanSource 30 [("1..10").data] =
       [ { sym := Sym.integer, line := 1, col := 0, int_val := 1 },
         { sym := Sym.range_sym, line := 1, col := 1 },
         { sym := Sym.integer, line := 1, col := 3, int_val := 10 },
         { sym := Sym.end_of_program, line := 1, col := -1 } ] ∧
     scanDiags 30 [("1..10").data] = []) ∧
    (∀ (f : Nat) (s : ScanState), s.next_char = '.' →
       following_char s = '.' →
       (scan_special_symbol f s).2.1 = Sym.range_sym ∧
       (scan_special_symbol f s).1.diags = s.diags) ∧
    (∀ (f : Nat) (s : ScanState), s.next_char = '.' →
       following_char s ≠ '.' →
       (scan_special_symbol f s).2.1 = Sym.nul ∧
       (scan_special_symbol f s).1.diags =
         s.diags ++ [⟨s.cur_line, s.cur_col, error_message Sym.range_sym⟩]) := by
  refine ⟨⟨by decide, by decide⟩, ?_, ?_⟩
  · intro f s h1 h2
    constructor
    · simp [scan_special_symbol, h1, h2]
    · simp [scan_special_symbol, h1, h2, get_char_diags]
  · intro f s h1 h2
    constructor
    · simp [scan_special_symbol, h1, h2]
    · simp [scan_special_symbol, h1, h2, get_char_diags, flagS]

/-- Witness for C6 on the concrete lone-dot scanner state. -/
theorem C6_lone_dot_never_a_token_witness :
    (scan_special_symbol 5 dotState).2.1 = Sym.nul ∧
    (scan_special_symbol 5 dotState).1.diags =
      dotState.diags ++
        [⟨dotState.cur_line, dotState.cur_col, error_message Sym.range_sym⟩] :=
  C6_lone_dot_never_a_token.2.2 5 dotState rfl (by decide)

/-- C9: the claim states that `dump` prints each record's kind label.
The source computes the kind label as `kind_name(0)` with a hardcoded
zero (its own comment says to substitute the record's numeric kind), so
the variable-kind record `X` is printed with `Kind: UNKNOWN` instead of
`Kind: VARIABLE`, while the name and the type label are printed from the
record. -/
theorem C9_dump_kind_hardcoded :
    dump tableX =
      ["~~~~~~~~~~~~~~~~~~~~~~~~~~~~~~~~~~~~~",
       "scope level 0",
       "---------------------",
       "Token Name: X Line No: 0 Position: 0  Type: INTEGER  Kind: UNKNOWN" ++
         "  Level: 0  Offset: 0  Trace?: 0  #params: 0"] ∧
    lookup tableX "X" =
      some { name := "X", ty := Lty.type_integer, kind := Kind.variable_kind } ∧
    kind_name (kindCode Kind.variable_kind) = "VARIABLE" := by
  refine ⟨by decide, by decide, by decide⟩

/-- C10: `synchronize` always returns with the recovery flag cleared,
both when a follow-set token is found and when skipping stops at the
end-of-program token. -/
theorem C10_synchronize_clears_recovery (follow : List Sym) (st : PState) :
    (pSynchronize follow st).recovering = false := by
  simp [pSynchronize, pSyncGo_recovering]

end Lille
